import Mathlib

/-!
Shallow embedding of the window-control facade in `src-tauri/src/lib.rs`.

The facade exposes four commands (`set_display_mode`, `toggle_fullscreen`,
`is_fullscreen`, `quit`).  Each one issues a sequence of best-effort platform
calls against the single top-level window; every platform-call failure is
discarded with `.ok()`.

The embedding separates WHAT the code asks the platform to do (a trace of
`PlatformCall`s, computed exactly as the Rust `match` computes its sequence of
method calls) from what the platform does with those requests (`applyCall`,
run under a success/failure oracle by `runCalls`).
-/

/-- Mirrors `tauri::PhysicalSize::new(width, height)`. -/
structure PhysicalSize where
  width : Nat
  height : Nat
deriving DecidableEq, Repr

/-- One platform-level window call issued by the facade.  Each constructor
corresponds to one `tauri::Window` method used in `lib.rs`. -/
inductive PlatformCall where
  | setFullscreen (b : Bool)
  | setDecorations (b : Bool)
  | maximize
  | unmaximize
  | setSize (s : PhysicalSize)
  | center
deriving DecidableEq, Repr

/-- The single top-level application window's presentation attributes, as
exposed by the host platform: fullscreen flag, decoration flag, maximized
flag, size, and position (abstracted to whether the window is currently
centered on the primary display). -/
structure Window where
  fullscreen : Bool
  decorations : Bool
  maximized : Bool
  size : PhysicalSize
  centered : Bool
deriving DecidableEq, Repr

/-- Effect of one successful platform call on the window state. -/
def applyCall (c : PlatformCall) (w : Window) : Window :=
  match c with
  | .setFullscreen b => { w with fullscreen := b }
  | .setDecorations b => { w with decorations := b }
  | .maximize => { w with maximized := true }
  | .unmaximize => { w with maximized := false }
  | .setSize s => { w with size := s }
  | .center => { w with centered := true }

/-- Run a call sequence under a success oracle `ok` (call number `i`, counted
from `i0`, succeeds iff `ok i`).  A failed call leaves the window unchanged
(`.ok()` discards the error) and the remaining calls still execute.  Returns
the final window state together with the list of calls that were attempted. -/
def runCallsFrom (ok : Nat → Bool) : Nat → List PlatformCall → Window → Window × List PlatformCall
  | _, [], w => (w, [])
  | i, c :: cs, w =>
    let w' := if ok i then applyCall c w else w
    let r := runCallsFrom ok (i + 1) cs w'
    (r.1, c :: r.2)

/-- Run a call sequence from call number 0. -/
def runCalls (ok : Nat → Bool) (cs : List PlatformCall) (w : Window) : Window × List PlatformCall :=
  runCallsFrom ok 0 cs w

/-- The platform calls issued by `set_display_mode` for a given `mode` string,
in source order.  In the Rust source the last arm is `"windowed" | _`, i.e. the
default arm and the `"windowed"` arm are one and the same. -/
def setDisplayModeCalls (mode : String) : List PlatformCall :=
  match mode with
  | "fullscreen" =>
    [PlatformCall.setDecorations true,
     PlatformCall.setFullscreen true]
  | "borderless" =>
    [PlatformCall.setFullscreen false,
     PlatformCall.setDecorations false,
     PlatformCall.maximize]
  | _ =>
    [PlatformCall.setFullscreen false,
     PlatformCall.setDecorations true,
     PlatformCall.unmaximize,
     PlatformCall.setSize ⟨1280, 720⟩,
     PlatformCall.center]

/-- `set_display_mode` as a state transformer: issue the preset's calls under
the oracle `ok`.  The Rust command returns `()`: the caller receives no result
and no error, so the embedding yields only the window state and the attempted
calls. -/
def set_display_mode (mode : String) (ok : Nat → Bool) (w : Window) : Window × List PlatformCall :=
  runCalls ok (setDisplayModeCalls mode) w

/-- The platform calls issued by `toggle_fullscreen`, given the result of the
`window.is_fullscreen()` read (`none` when the read failed; `unwrap_or(false)`
turns that into `false`). -/
def toggle_fullscreen (readResult : Option Bool) : List PlatformCall :=
  let is_fs := readResult.getD false
  [PlatformCall.setFullscreen (!is_fs)]

/-- One `toggle_fullscreen` invocation in which the platform read succeeds and
reports the window's true fullscreen state, and the write succeeds. -/
def toggleStep (w : Window) : Window :=
  (runCalls (fun _ => true) (toggle_fullscreen (some w.fullscreen)) w).1

/-- `is_fullscreen` given the result of the `window.is_fullscreen()` read:
returns the read value with read failure defaulted to `false`, and issues no
platform write at all. -/
def is_fullscreen (readResult : Option Bool) : Bool × List PlatformCall :=
  (readResult.getD false, [])

/-- Process-level state: the window plus the exit status (`some code` once the
process has terminated). -/
structure ProcState where
  window : Window
  exited : Option Nat
deriving DecidableEq, Repr

/-- Mirrors `tauri::AppHandle::exit(code)`: terminates the process with the
given exit code. -/
def appExit (code : Nat) (p : ProcState) : ProcState :=
  { p with exited := some code }

/-- The `quit` command: `app.exit(0)`. -/
def quit (p : ProcState) : ProcState :=
  appExit 0 p

/-- The facade's remotely invocable command surface. -/
inductive Command where
  | cmdSetDisplayMode (mode : String)
  | cmdToggleFullscreen
  | cmdIsFullscreen
  | cmdQuit
deriving DecidableEq, Repr

/-- Modelled from the spec: the host framework's command-invocation channel
(`invoke_handler` is framework wiring, not in `src/`) dispatches a command to
the facade only while the process is still running; after termination no
further commands are processed.  `ok` is the platform-call success oracle and
`readResult` the fullscreen-read result for this dispatch. -/
def dispatch (c : Command) (ok : Nat → Bool) (readResult : Option Bool) (p : ProcState) : ProcState :=
  match p.exited with
  | some _ => p
  | none =>
    match c with
    | .cmdSetDisplayMode mode => { p with window := (set_display_mode mode ok p.window).1 }
    | .cmdToggleFullscreen => { p with window := (runCalls ok (toggle_fullscreen readResult) p.window).1 }
    | .cmdIsFullscreen => p
    | .cmdQuit => quit p

/-- The calls of `cs` whose position (counted from `i`) the oracle accepts. -/
def keepOk (ok : Nat → Bool) : Nat → List PlatformCall → List PlatformCall
  | _, [] => []
  | i, c :: cs => if ok i then c :: keepOk ok (i + 1) cs else keepOk ok (i + 1) cs

/-- Apply a list of (all-successful) calls in order. -/
def applyAll (cs : List PlatformCall) (w : Window) : Window :=
  cs.foldl (fun w c => applyCall c w) w

/-- Every call of the sequence is attempted, whatever the oracle decides. -/
theorem runCallsFrom_attempted (ok : Nat → Bool) (cs : List PlatformCall) :
    ∀ (i : Nat) (w : Window), (runCallsFrom ok i cs w).2 = cs := by
  induction cs with
  | nil => intro i w; rfl
  | cons c cs ih => intro i w; simp [runCallsFrom, ih]

/-- The final window state is the effect of exactly the calls the oracle let
succeed, applied in order. -/
theorem runCallsFrom_state (ok : Nat → Bool) (cs : List PlatformCall) :
    ∀ (i : Nat) (w : Window), (runCallsFrom ok i cs w).1 = applyAll (keepOk ok i cs) w := by
  induction cs with
  | nil => intro i w; rfl
  | cons c cs ih =>
    intro i w
    cases h : ok i <;> simp [runCallsFrom, keepOk, applyAll, h, ih]

/-- C1: for the mode string "windowed", `set_display_mode` attempts, in this
order: disable fullscreen, enable decorations, restore from maximized, resize
the window to the fixed default size 1280×720, and recenter it on the primary
display. -/
theorem set_display_mode_windowed_order (ok : Nat → Bool) (w : Window) :
    (set_display_mode "windowed" ok w).2 =
      [PlatformCall.setFullscreen false,
       PlatformCall.setDecorations true,
       PlatformCall.unmaximize,
       PlatformCall.setSize ⟨1280, 720⟩,
       PlatformCall.center] := by
  simp [set_display_mode, runCalls, runCallsFrom_attempted, setDisplayModeCalls]

/-- C2: after `set_display_mode` with mode "borderless", assuming every
platform call succeeds, the window ends with fullscreen = false,
decorations = false and maximized = true. -/
theorem set_display_mode_borderless_flags (ok : Nat → Bool) (w : Window)
    (h : ∀ i, ok i = true) :
    ((set_display_mode "borderless" ok w).1).fullscreen = false ∧
    ((set_display_mode "borderless" ok w).1).decorations = false ∧
    ((set_display_mode "borderless" ok w).1).maximized = true := by
  simp [set_display_mode, runCalls, runCallsFrom, setDisplayModeCalls, h, applyCall]

/-- Witness for C2 at a concrete window with an all-success oracle. -/
theorem set_display_mode_borderless_flags_witness :
    ((set_display_mode "borderless" (fun _ => true) ⟨true, true, false, ⟨800, 600⟩, false⟩).1).fullscreen = false ∧
    ((set_display_mode "borderless" (fun _ => true) ⟨true, true, false, ⟨800, 600⟩, false⟩).1).decorations = false ∧
    ((set_display_mode "borderless" (fun _ => true) ⟨true, true, false, ⟨800, 600⟩, false⟩).1).maximized = true :=
  set_display_mode_borderless_flags (fun _ => true) ⟨true, true, false, ⟨800, 600⟩, false⟩
    (fun _ => rfl)

/-- C3: for the mode string "fullscreen", `set_display_mode` first enables
decorations and then enables fullscreen, in that order, and when the platform
calls succeed the window ends with decorations = true and fullscreen = true. -/
theorem set_display_mode_fullscreen_flags (ok : Nat → Bool) (w : Window)
    (h : ∀ i, ok i = true) :
    (set_display_mode "fullscreen" ok w).2 =
      [PlatformCall.setDecorations true, PlatformCall.setFullscreen true] ∧
    ((set_display_mode "fullscreen" ok w).1).decorations = true ∧
    ((set_display_mode "fullscreen" ok w).1).fullscreen = true := by
  refine ⟨?_, ?_, ?_⟩ <;>
    simp [set_display_mode, runCalls, runCallsFrom, setDisplayModeCalls, h, applyCall]

/-- Witness for C3 at a concrete window with an all-success oracle. -/
theorem set_display_mode_fullscreen_flags_witness :
    (set_display_mode "fullscreen" (fun _ => true) ⟨false, false, true, ⟨640, 480⟩, false⟩).2 =
      [PlatformCall.setDecorations true, PlatformCall.setFullscreen true] ∧
    ((set_display_mode "fullscreen" (fun _ => true) ⟨false, false, true, ⟨640, 480⟩, false⟩).1).decorations = true ∧
    ((set_display_mode "fullscreen" (fun _ => true) ⟨false, false, true, ⟨640, 480⟩, false⟩).1).fullscreen = true :=
  set_display_mode_fullscreen_flags (fun _ => true) ⟨false, false, true, ⟨640, 480⟩, false⟩
    (fun _ => rfl)

/-- C4: every mode string other than "fullscreen" and "borderless" makes
`set_display_mode` behave exactly as it does for "windowed": same platform
calls, in the same order, with the same arguments, hence the same final
state under every oracle. -/
theorem set_display_mode_default_case (mode : String) (ok : Nat → Bool) (w : Window)
    (h1 : mode ≠ "fullscreen") (h2 : mode ≠ "borderless") :
    set_display_mode mode ok w = set_display_mode "windowed" ok w := by
  unfold set_display_mode runCalls
  have hcalls : setDisplayModeCalls mode = setDisplayModeCalls "windowed" := by
    unfold setDisplayModeCalls
    split
    · exact absurd rfl h1
    · exact absurd rfl h2
    · rfl
  rw [hcalls]

/-- Witness for C4 at the unrecognized mode string "anything-unrecognized". -/
theorem set_display_mode_default_case_witness :
    set_display_mode "anything-unrecognized" (fun _ => true) ⟨false, true, false, ⟨1, 1⟩, false⟩ =
      set_display_mode "windowed" (fun _ => true) ⟨false, true, false, ⟨1, 1⟩, false⟩ :=
  set_display_mode_default_case "anything-unrecognized" (fun _ => true)
    ⟨false, true, false, ⟨1, 1⟩, false⟩ (by decide) (by decide)

/-- C5: `toggle_fullscreen` reads the fullscreen state, treats an unreadable
state (`none`) as `false`, and writes the logical negation of the value read:
an unreadable or `false` read makes it write `true`, a `true` read makes it
write `false`. -/
theorem toggle_fullscreen_negates (readResult : Option Bool) :
    toggle_fullscreen readResult =
      [PlatformCall.setFullscreen (!(readResult.getD false))] ∧
    toggle_fullscreen none = [PlatformCall.setFullscreen true] ∧
    (∀ b, toggle_fullscreen (some b) = [PlatformCall.setFullscreen (!b)]) :=
  ⟨rfl, rfl, fun _ => rfl⟩

/-- C6: two successive `toggle_fullscreen` invocations, with the platform read
reporting the true state and every platform call succeeding, restore the
window to its original state, whatever that state was. -/
theorem toggleStep_involutive (w : Window) :
    toggleStep (toggleStep w) = w := by
  simp [toggleStep, toggle_fullscreen, runCalls, runCallsFrom, applyCall]

/-- C7: in every preset of `set_display_mode`, each platform call is attempted
whatever the oracle makes fail, and the final state is the effect of exactly
the calls that succeeded, in order: a failed call is discarded, the rest still
run, and the command yields no error to the caller. -/
theorem set_display_mode_best_effort (mode : String) (ok : Nat → Bool) (w : Window) :
    (set_display_mode mode ok w).2 = setDisplayModeCalls mode ∧
    (set_display_mode mode ok w).1 = applyAll (keepOk ok 0 (setDisplayModeCalls mode)) w :=
  ⟨runCallsFrom_attempted ok (setDisplayModeCalls mode) 0 w,
   runCallsFrom_state ok (setDisplayModeCalls mode) 0 w⟩

/-- C8: `is_fullscreen` returns the window's fullscreen state as read, returns
`false` when the read fails, and issues no write to any window attribute. -/
theorem is_fullscreen_read_only (readResult : Option Bool) :
    (is_fullscreen readResult).1 = readResult.getD false ∧
    (is_fullscreen none).1 = false ∧
    (∀ b, (is_fullscreen (some b)).1 = b) ∧
    (is_fullscreen readResult).2 = [] :=
  ⟨rfl, rfl, fun _ => rfl, rfl⟩

/-- C9: `quit` terminates the process with exit code 0, and afterwards no
command changes the process state: every later dispatch is a no-op. -/
theorem quit_terminates (p : ProcState) (c : Command) (ok : Nat → Bool)
    (readResult : Option Bool) :
    (quit p).exited = some 0 ∧ dispatch c ok readResult (quit p) = quit p := by
  exact ⟨rfl, by simp [dispatch, quit, appExit]⟩

/-- C10: `toggle_fullscreen` issues exactly one write, and it is a write to
the fullscreen flag; for every initial window state and oracle, decorations,
maximized flag, size and position are left untouched. -/
theorem toggle_fullscreen_frame (readResult : Option Bool) (ok : Nat → Bool) (w : Window) :
    (toggle_fullscreen readResult).length = 1 ∧
    (∃ b, toggle_fullscreen readResult = [PlatformCall.setFullscreen b]) ∧
    ((runCalls ok (toggle_fullscreen readResult) w).1).decorations = w.decorations ∧
    ((runCalls ok (toggle_fullscreen readResult) w).1).maximized = w.maximized ∧
    ((runCalls ok (toggle_fullscreen readResult) w).1).size = w.size ∧
    ((runCalls ok (toggle_fullscreen readResult) w).1).centered = w.centered := by
  refine ⟨rfl, ⟨!(readResult.getD false), rfl⟩, ?_, ?_, ?_, ?_⟩ <;>
    cases h : ok 0 <;> simp [runCalls, runCallsFrom, toggle_fullscreen, applyCall, h]
